import Mathlib

/-!
Shallow embedding of the strategy plugins of the pyalgostrategypool
repository.  Python sequences become Lean lists, prices become rationals,
IEEE NaN values produced by the external talib indicator library are
modelled as `none : Option ℚ` (every comparison against NaN is false),
and Python exceptions are modelled with `Except PyErr`.  The external
numeric library (talib) and engine utilities are treated as an abstract
collaborator boundary: strategy code receives the indicator outputs as
function parameters, exactly at the call sites where the source invokes
them.
-/

namespace Spec2Proof

/-- Python runtime exceptions that the modelled code can raise, plus the
framework's fatal `ABSystemExit` abort. -/
inductive PyErr where
  | indexError
  | valueError
  | keyError
  | typeError
  | attributeError
  | abSystemExit
deriving DecidableEq, Repr

/-- Python `xs[-1]`: the last element, `IndexError` on an empty sequence. -/
def pyLast {α : Type} (xs : List α) : Except PyErr α :=
  match xs.getLast? with
  | some a => Except.ok a
  | none => Except.error PyErr.indexError

/-- Python `xs.iloc[-n]` / `xs[-n]` for a non-negative literal `n`:
`-0` is index `0`; otherwise the `n`-th element from the end;
`IndexError` when out of range. -/
def pyIlocNeg {α : Type} (xs : List α) (n : Nat) : Except PyErr α :=
  if n = 0 then
    match xs.head? with
    | some a => Except.ok a
    | none => Except.error PyErr.indexError
  else if n ≤ xs.length then
    match (xs.drop (xs.length - n)).head? with
    | some a => Except.ok a
    | none => Except.error PyErr.indexError
  else Except.error PyErr.indexError

/-- Python slice `xs[-n:]`: for `n = 0` this is the whole list (because
`-0 == 0`), otherwise the last `n` elements (the whole list when
`n ≥ len(xs)`). -/
def pySliceLast {α : Type} (n : Nat) (xs : List α) : List α :=
  if n = 0 then xs else xs.drop (xs.length - n)

/-- Python `max(xs)` over real (non-NaN) floats: `ValueError` on empty. -/
def pyMax (xs : List ℚ) : Except PyErr ℚ :=
  match xs with
  | [] => Except.error PyErr.valueError
  | a :: rest => Except.ok (rest.foldl max a)

/-- Python `min(xs)` over real (non-NaN) floats: `ValueError` on empty. -/
def pyMin (xs : List ℚ) : Except PyErr ℚ :=
  match xs with
  | [] => Except.error PyErr.valueError
  | a :: rest => Except.ok (rest.foldl min a)

/-- Comparison `a < b` on possibly-NaN floats: false whenever either side
is NaN. -/
def pyLtOpt : Option ℚ → Option ℚ → Bool
  | some a, some b => decide (a < b)
  | _, _ => false

/-- Comparison `a > b` on possibly-NaN floats. -/
def pyGtOpt : Option ℚ → Option ℚ → Bool
  | some a, some b => decide (b < a)
  | _, _ => false

/-- Comparison `a <= b` on possibly-NaN floats. -/
def pyLeOpt : Option ℚ → Option ℚ → Bool
  | some a, some b => decide (a ≤ b)
  | _, _ => false

/-- Comparison `a >= b` on possibly-NaN floats. -/
def pyGeOpt : Option ℚ → Option ℚ → Bool
  | some a, some b => decide (b ≤ a)
  | _, _ => false

/-- Subtraction on possibly-NaN floats: NaN propagates. -/
def optSub : Option ℚ → Option ℚ → Option ℚ
  | some a, some b => some (a - b)
  | _, _ => none

/-- Addition on possibly-NaN floats: NaN propagates. -/
def optAdd : Option ℚ → Option ℚ → Option ℚ
  | some a, some b => some (a + b)
  | _, _ => none

/-- Multiplication by a real scalar on a possibly-NaN float. -/
def optMulK (k : ℚ) : Option ℚ → Option ℚ
  | some a => some (k * a)
  | none => none

/-- Python `max(xs)` over a possibly-NaN sequence: CPython keeps the
current maximum unless the next element compares strictly greater, so a
leading NaN is sticky.  `ValueError` on empty. -/
def pyMaxOptSeq (xs : List (Option ℚ)) : Except PyErr (Option ℚ) :=
  match xs with
  | [] => Except.error PyErr.valueError
  | a :: rest => Except.ok (rest.foldl (fun cur nxt => if pyGtOpt nxt cur then nxt else cur) a)

/-- Python `min(xs)` over a possibly-NaN sequence, mirroring CPython. -/
def pyMinOptSeq (xs : List (Option ℚ)) : Except PyErr (Option ℚ) :=
  match xs with
  | [] => Except.error PyErr.valueError
  | a :: rest => Except.ok (rest.foldl (fun cur nxt => if pyLtOpt nxt cur then nxt else cur) a)

/-- NumPy `np.min` over a possibly-NaN array: NaN-propagating minimum
(`none` is never used on the empty list by the modelled code, which
guards the call; we return `none` there). -/
def npMinOpt (xs : List (Option ℚ)) : Option ℚ :=
  match xs with
  | [] => none
  | a :: rest => rest.foldl (fun cur nxt =>
      match cur, nxt with
      | some u, some v => some (min u v)
      | _, _ => none) a

/-- NumPy `np.max` over a possibly-NaN array: NaN-propagating maximum. -/
def npMaxOpt (xs : List (Option ℚ)) : Option ℚ :=
  match xs with
  | [] => none
  | a :: rest => rest.foldl (fun cur nxt =>
      match cur, nxt with
      | some u, some v => some (max u v)
      | _, _ => none) a

/-- Dereference an `Option`, raising the given Python error on `None`. -/
def getSomeOr {α : Type} (e : PyErr) : Option α → Except PyErr α
  | some a => Except.ok a
  | none => Except.error e

instance {ε α : Type} [DecidableEq ε] [DecidableEq α] : DecidableEq (Except ε α) := fun x y =>
  match x, y with
  | Except.ok a, Except.ok b =>
    if h : a = b then isTrue (by rw [h]) else isFalse (by intro hc; cases hc; exact h rfl)
  | Except.ok _, Except.error _ => isFalse (by intro hc; cases hc)
  | Except.error _, Except.ok _ => isFalse (by intro hc; cases hc)
  | Except.error e, Except.error f =>
    if h : e = f then isTrue (by rw [h]) else isFalse (by intro hc; cases hc; exact h rfl)

/-- One OHLCV bar of historical data. -/
structure Bar where
  open_price : ℚ
  high : ℚ
  low : ℚ
  close : ℚ
  volume : ℚ
deriving DecidableEq, Repr

/-- A bar window, most-recent-last, as supplied by
`get_historical_data`. -/
abbrev HistData := List Bar

/-- The `close` column of a bar window. -/
def closesOf (h : HistData) : List ℚ := h.map Bar.close

/-- The `high` column of a bar window. -/
def highsOf (h : HistData) : List ℚ := h.map Bar.high

/-- The `low` column of a bar window. -/
def lowsOf (h : HistData) : List ℚ := h.map Bar.low

/-- The `volume` column of a bar window. -/
def volumesOf (h : HistData) : List ℚ := h.map Bar.volume

/-- A bar has consistent OHLC values: its close lies between its low and
its high. -/
def ValidBar (b : Bar) : Prop := b.low ≤ b.close ∧ b.close ≤ b.high

instance (b : Bar) : Decidable (ValidBar b) := by
  unfold ValidBar; infer_instance

/-- A tradable instrument, identified by its symbol. -/
structure Instrument where
  symbol : String
deriving DecidableEq, Repr

instance : BEq Instrument := ⟨fun a b => a.symbol == b.symbol⟩

instance : LawfulBEq Instrument where
  rfl := by intro a; simp [BEq.beq]
  eq_of_beq := by
    intro a b h
    cases a; cases b
    simp only [BEq.beq] at h
    simp_all

/-- The external indicator library (talib) and its outputs.  Raw inputs
are real-valued price/volume columns; outputs may contain NaN warm-up
entries, hence `Option ℚ`. -/
structure IndicatorLib where
  OBV : List ℚ → List ℚ → List (Option ℚ)
  SMA : List (Option ℚ) → Nat → List (Option ℚ)
  ATR : List ℚ → List ℚ → List ℚ → Nat → List (Option ℚ)
  EMA : List ℚ → Nat → List (Option ℚ)

/-- Discrete trade signal / intent action. -/
inductive TradeAction where
  | BUY
  | SELL
  | EXIT
deriving DecidableEq, Repr

/-- The per-instrument metadata map `{'action': ...}` used by the
single-leg strategies. -/
structure SignalMeta where
  action : TradeAction
deriving DecidableEq, Repr

/-- Side of an open position. -/
inductive PositionSide where
  | LONG
  | SHORT
deriving DecidableEq, Repr

/-- Status of a broker order. -/
inductive OrderStatus where
  | COMPLETE
  | REJECTED
  | OPEN_PENDING
deriving DecidableEq, Repr

/-- A broker order handle, as far as the strategies inspect it. -/
structure Order where
  instrument : Instrument
  entry_price : ℚ
  broker_order_id : Option String
  status : OrderStatus
deriving DecidableEq, Repr

end Spec2Proof

namespace Spec2Proof.OBVBreakoutStrategy

open Spec2Proof

/-- Strategy parameters of `OBVBreakoutStrategy`. -/
structure Params where
  obv_ma_period : Nat
  lookback_period : Nat
  trailing_stop_period : Nat
  atr_period : Nat
  atr_multiplier : ℚ
deriving DecidableEq, Repr

/-- One entry of `self.positions_data`. -/
structure PositionData where
  side : PositionSide
  entry_price : ℚ
deriving DecidableEq, Repr

/-- The `self.positions_data` dictionary, keyed by instrument symbol. -/
abbrev PositionsData := List (String × PositionData)

/-- The `compute_obv` method: raw OBV and its SMA smoothing, both
obtained from the external library. -/
def compute_obv (lib : IndicatorLib) (p : Params) (hist_data : HistData) :
    List (Option ℚ) × List (Option ℚ) :=
  let obv := lib.OBV (closesOf hist_data) (volumesOf hist_data)
  (obv, lib.SMA obv p.obv_ma_period)

/-- The `is_price_breakout` method: latest close strictly above the
maximum of the last `lookback_period` highs (a slice taken with Python
negative indexing, hence including the current bar). -/
def is_price_breakout (lookback_period : Nat) (hist_data : HistData) :
    Except PyErr Bool := do
  let c ← pyLast (closesOf hist_data)
  let m ← pyMax (pySliceLast lookback_period (highsOf hist_data))
  return decide (m < c)

/-- The `is_obv_breakout` method. -/
def is_obv_breakout (lookback_period : Nat) (smoothed_obv : List (Option ℚ)) :
    Except PyErr Bool := do
  let cur ← pyLast smoothed_obv
  let m ← pyMaxOptSeq (pySliceLast lookback_period smoothed_obv)
  return pyGtOpt cur m

/-- The `is_price_breakdown` method: latest close strictly below the
minimum of the last `lookback_period` lows. -/
def is_price_breakdown (lookback_period : Nat) (hist_data : HistData) :
    Except PyErr Bool := do
  let c ← pyLast (closesOf hist_data)
  let m ← pyMin (pySliceLast lookback_period (lowsOf hist_data))
  return decide (c < m)

/-- The `is_obv_breakdown` method. -/
def is_obv_breakdown (lookback_period : Nat) (smoothed_obv : List (Option ℚ)) :
    Except PyErr Bool := do
  let cur ← pyLast smoothed_obv
  let m ← pyMinOptSeq (pySliceLast lookback_period smoothed_obv)
  return pyLtOpt cur m

/-- The `compute_signals` method.  Python `and` short-circuits, so the
OBV-side check only runs when the price-side check passed. -/
def compute_signals (lib : IndicatorLib) (p : Params) (hist_data : HistData) :
    Except PyErr (Option TradeAction) := do
  let (_obv, smoothed_obv) := compute_obv lib p hist_data
  let pb ← is_price_breakout p.lookback_period hist_data
  let lb ← if pb then is_obv_breakout p.lookback_period smoothed_obv else Except.ok false
  if pb && lb then
    return some TradeAction.BUY
  else do
    let pdn ← is_price_breakdown p.lookback_period hist_data
    let sdn ← if pdn then is_obv_breakdown p.lookback_period smoothed_obv else Except.ok false
    if pdn && sdn then
      return some TradeAction.SELL
    else
      return none

/-- The per-instrument body of `strategy_select_instruments_for_entry`:
`none` means the instrument is not selected this tick. -/
def entry_step (lib : IndicatorLib) (p : Params) (getHist : Instrument → HistData)
    (positions_data : PositionsData) (instrument : Instrument) :
    Except PyErr (Option SignalMeta) :=
  if (positions_data.lookup instrument.symbol).isSome then
    Except.ok none
  else do
    let signal ← compute_signals lib p (getHist instrument)
    match signal with
    | some TradeAction.BUY => return some ⟨TradeAction.BUY⟩
    | some TradeAction.SELL => return some ⟨TradeAction.SELL⟩
    | _ => return none

/-- The selector loop shared by the OBV entry and exit callbacks: each
iteration appends at most one (instrument, metadata) pair, and the two
output lists grow in lockstep. -/
def selectLoop (step : Instrument → Except PyErr (Option SignalMeta)) :
    List Instrument → Except PyErr (List Instrument × List SignalMeta)
  | [] => Except.ok ([], [])
  | instrument :: rest => do
    let r ← step instrument
    let (sel, meta) ← selectLoop step rest
    match r with
    | some mv => return (instrument :: sel, mv :: meta)
    | none => return (sel, meta)

/-- The `strategy_select_instruments_for_entry` callback. -/
def strategy_select_instruments_for_entry (lib : IndicatorLib) (p : Params)
    (getHist : Instrument → HistData) (positions_data : PositionsData)
    (instruments_bucket : List Instrument) :
    Except PyErr (List Instrument × List SignalMeta) :=
  selectLoop (entry_step lib p getHist positions_data) instruments_bucket

/-- The per-instrument body of `strategy_select_instruments_for_exit`. -/
def exit_step (lib : IndicatorLib) (p : Params) (getHist : Instrument → HistData)
    (positions_data : PositionsData) (instrument : Instrument) :
    Except PyErr (Option SignalMeta) :=
  match positions_data.lookup instrument.symbol with
  | none => Except.ok none
  | some position_data => do
    let side := position_data.side
    let entry_price := position_data.entry_price
    let hist_data := getHist instrument
    let (obv, smoothed_obv) := compute_obv lib p hist_data
    let current_obv ← pyLast obv
    let current_smoothed_obv ← pyLast smoothed_obv
    let hist_obv_segment :=
      if p.lookback_period ≤ obv.length then pySliceLast p.lookback_period obv else obv
    let min_obv := if 0 < hist_obv_segment.length then npMinOpt hist_obv_segment else current_obv
    let max_obv := if 0 < hist_obv_segment.length then npMaxOpt hist_obv_segment else current_obv
    let atr := lib.ATR (highsOf hist_data) (lowsOf hist_data) (closesOf hist_data) p.atr_period
    let current_atr := atr.getLast?.getD (some 0)
    let close_price ← pyLast (closesOf hist_data)
    let (trailing_stop_long, trailing_stop_short) ←
      if p.trailing_stop_period ≤ (lowsOf hist_data).length then do
        let l ← pyMin (pySliceLast p.trailing_stop_period (lowsOf hist_data))
        let h ← pyMax (pySliceLast p.trailing_stop_period (highsOf hist_data))
        Except.ok (l, h)
      else do
        let l ← pyMin (lowsOf hist_data)
        let h ← pyMax (highsOf hist_data)
        Except.ok (l, h)
    match side with
    | PositionSide.LONG =>
      let obv_exit_condition :=
        pyLtOpt current_obv current_smoothed_obv || pyLtOpt current_obv min_obv
      let stop_exit_condition :=
        decide (close_price < trailing_stop_long) ||
        pyLtOpt (some close_price) (optSub (some entry_price) (optMulK p.atr_multiplier current_atr))
      if obv_exit_condition || stop_exit_condition then
        return some ⟨TradeAction.EXIT⟩
      else
        return none
    | PositionSide.SHORT =>
      let obv_exit_condition :=
        pyGtOpt current_obv current_smoothed_obv || pyGtOpt current_obv max_obv
      let stop_exit_condition :=
        decide (trailing_stop_short < close_price) ||
        pyGtOpt (some close_price) (optAdd (some entry_price) (optMulK p.atr_multiplier current_atr))
      if obv_exit_condition || stop_exit_condition then
        return some ⟨TradeAction.EXIT⟩
      else
        return none

/-- The `strategy_select_instruments_for_exit` callback. -/
def strategy_select_instruments_for_exit (lib : IndicatorLib) (p : Params)
    (getHist : Instrument → HistData) (positions_data : PositionsData)
    (instruments_bucket : List Instrument) :
    Except PyErr (List Instrument × List SignalMeta) :=
  selectLoop (exit_step lib p getHist positions_data) instruments_bucket

/-- The `strategy_exit_position` callback.  The Python function has no
return statement, so it returns `None` (modelled as
`none : Option Bool`) in every branch; on action EXIT it deletes the
instrument's entry from `positions_data` (guarded by a membership
check, so it never raises). -/
def strategy_exit_position (positions_data : PositionsData)
    (instrument : Instrument) (meta : SignalMeta) :
    Option Bool × PositionsData :=
  if meta.action = TradeAction.EXIT then
    (none, positions_data.eraseP (fun q => q.fst == instrument.symbol))
  else
    (none, positions_data)

end Spec2Proof.OBVBreakoutStrategy

namespace Spec2Proof.StrategyEMARegularOrder

open Spec2Proof

/-- The `self.main_order_map` dictionary of the single-leg strategies:
instrument to order handle, where a stored `None` marks an exited
position. -/
abbrev MainOrderMap := List (Instrument × Option Order)

/-- Python `self.main_order_map.get(instrument)`: `None` both when the
key is absent and when the stored value is `None`. -/
def mainOrderGet (m : MainOrderMap) (instrument : Instrument) : Option Order :=
  (m.lookup instrument).join

/-- Store `None` under the instrument key (the `strategy_exit_position`
assignment), replacing an existing binding or adding one. -/
def mainOrderSetNone (m : MainOrderMap) (instrument : Instrument) : MainOrderMap :=
  if m.any (fun q => q.fst == instrument) then
    m.map (fun q => if q.fst == instrument then (q.fst, none) else q)
  else
    m ++ [(instrument, none)]

/-- The `get_crossover_value` method of `ema_crossover_v2.py`: two EMA
series from the external library reduced by the engine-supplied
`utils.crossover` function. -/
def get_crossover_value (lib : IndicatorLib)
    (crossover : List (Option ℚ) → List (Option ℚ) → Int)
    (timeperiod1 timeperiod2 : Nat) (hist_data : HistData) : Int :=
  crossover (lib.EMA (closesOf hist_data) timeperiod1)
    (lib.EMA (closesOf hist_data) timeperiod2)

/-- The `strategy_select_instruments_for_entry` callback of
`ema_crossover_v2.py`.  Note: the loop body consults only the crossover
value — it never reads `main_order_map`. -/
def strategy_select_instruments_for_entry (lib : IndicatorLib)
    (crossover : List (Option ℚ) → List (Option ℚ) → Int)
    (timeperiod1 timeperiod2 : Nat) (getHist : Instrument → HistData) :
    List Instrument → List Instrument × List SignalMeta
  | [] => ([], [])
  | instrument :: rest =>
    let (sel, meta) :=
      strategy_select_instruments_for_entry lib crossover timeperiod1 timeperiod2 getHist rest
    let cv := get_crossover_value lib crossover timeperiod1 timeperiod2 (getHist instrument)
    if cv = 1 then (instrument :: sel, ⟨TradeAction.BUY⟩ :: meta)
    else if cv = -1 then (instrument :: sel, ⟨TradeAction.SELL⟩ :: meta)
    else (sel, meta)

/-- The `strategy_select_instruments_for_exit` callback of
`ema_crossover_v2.py`: only instruments whose `main_order_map` entry is
a live order are evaluated. -/
def strategy_select_instruments_for_exit (lib : IndicatorLib)
    (crossover : List (Option ℚ) → List (Option ℚ) → Int)
    (timeperiod1 timeperiod2 : Nat) (getHist : Instrument → HistData)
    (main_order_map : MainOrderMap) :
    List Instrument → List Instrument × List SignalMeta
  | [] => ([], [])
  | instrument :: rest =>
    let (sel, meta) :=
      strategy_select_instruments_for_exit lib crossover timeperiod1 timeperiod2 getHist
        main_order_map rest
    if (mainOrderGet main_order_map instrument).isSome then
      let cv := get_crossover_value lib crossover timeperiod1 timeperiod2 (getHist instrument)
      if cv = 1 ∨ cv = -1 then (instrument :: sel, ⟨TradeAction.EXIT⟩ :: meta)
      else (sel, meta)
    else (sel, meta)

/-- The `strategy_exit_position` callback of `ema_crossover_v2.py`: on
action EXIT it exits the stored order (raising if the dictionary entry
is missing or `None`), sets the entry to `None`, and returns `True`;
otherwise it returns `False`.  The Python return value is a `bool`,
modelled as `some b : Option Bool` to keep the same type as callbacks
that fall through with no return statement. -/
def strategy_exit_position (main_order_map : MainOrderMap)
    (instrument : Instrument) (meta : SignalMeta) :
    Except PyErr (Option Bool × MainOrderMap) :=
  if meta.action = TradeAction.EXIT then
    match main_order_map.lookup instrument with
    | none => Except.error PyErr.keyError
    | some none => Except.error PyErr.attributeError
    | some (some _order) =>
      Except.ok (some true, mainOrderSetNone main_order_map instrument)
  else
    Except.ok (some false, main_order_map)

end Spec2Proof.StrategyEMARegularOrder

namespace Spec2Proof.MeanReversionBollingerBandsV2

open Spec2Proof

/-- The `get_decision` method of `mean_reversion_bollinger_bands_v2.py`.
The upper/lower Bollinger bands are the external library's outputs for
this bar window (NaN during warm-up); the candle lookups use pandas
`iloc[-1]` / `iloc[-2]`, which raise on windows shorter than two
bars. -/
def get_decision (upper_band lower_band : List (Option ℚ))
    (hist_data : HistData) : Except PyErr (Option TradeAction) := do
  let upper_band_value ← pyLast upper_band
  let lower_band_value ← pyLast lower_band
  let latest_candle ← pyIlocNeg hist_data 1
  let previous_candle ← pyIlocNeg hist_data 2
  if (pyLeOpt (some previous_candle.open_price) lower_band_value ||
      pyLeOpt (some previous_candle.low) lower_band_value) &&
      decide (previous_candle.close < latest_candle.close) then
    return some TradeAction.BUY
  else if (pyGeOpt (some previous_candle.open_price) upper_band_value ||
      pyGeOpt (some previous_candle.close) upper_band_value) &&
      decide (latest_candle.close < previous_candle.close) then
    return some TradeAction.SELL
  else
    return none

end Spec2Proof.MeanReversionBollingerBandsV2

namespace Spec2Proof.StrategyBollingerBandsIntraday

open Spec2Proof

/-- The `get_decision` method of
`strategy_bollinger_bands_intraday/_strategy.py`: same shape as the
mean-reversion variant but with all four OHLC fields of the previous
candle tested against each band. -/
def get_decision (upper_band lower_band : List (Option ℚ))
    (hist_data : HistData) : Except PyErr (Option TradeAction) := do
  let upper_band_value ← pyLast upper_band
  let lower_band_value ← pyLast lower_band
  let latest_candle ← pyIlocNeg hist_data 1
  let previous_candle ← pyIlocNeg hist_data 2
  if (pyLeOpt (some previous_candle.open_price) lower_band_value ||
      pyLeOpt (some previous_candle.high) lower_band_value ||
      pyLeOpt (some previous_candle.low) lower_band_value ||
      pyLeOpt (some previous_candle.close) lower_band_value) &&
      decide (previous_candle.close < latest_candle.close) then
    return some TradeAction.BUY
  else if (pyGeOpt (some previous_candle.open_price) upper_band_value ||
      pyGeOpt (some previous_candle.high) upper_band_value ||
      pyGeOpt (some previous_candle.low) upper_band_value ||
      pyGeOpt (some previous_candle.close) upper_band_value) &&
      decide (latest_candle.close < previous_candle.close) then
    return some TradeAction.SELL
  else
    return none

end Spec2Proof.StrategyBollingerBandsIntraday

namespace Spec2Proof.VolatilityTrendATRV2

open Spec2Proof
open Spec2Proof.StrategyEMARegularOrder (MainOrderMap mainOrderGet)

/-- The `get_trend_direction` method: compares the latest ATR value with
the one `atr_prev_candles_num` candles back (`iloc[-n]`). -/
def get_trend_direction (lib : IndicatorLib)
    (timeperiod_atr atr_prev_candles_num : Nat) (hist_data : HistData) :
    Except PyErr Int := do
  let atr := lib.ATR (highsOf hist_data) (lowsOf hist_data) (closesOf hist_data) timeperiod_atr
  let current_atr ← pyIlocNeg atr 1
  let atr_prev ← pyIlocNeg atr atr_prev_candles_num
  if pyGtOpt current_atr atr_prev then
    return 1
  else if pyLtOpt current_atr atr_prev then
    return (-1)
  else
    return 0

/-- State threaded through the entry-selector loop.  `trend_calls` is a
ghost counter, incremented exactly where the source invokes
`get_trend_direction` (the `self.current_trend == 0` branch); it
instruments the embedding without altering any decision. -/
structure EntryState where
  instruments : List Instrument
  meta : List SignalMeta
  current_trend : Int
  previous_trend : Int
  trend_calls : Nat
deriving DecidableEq, Repr

/-- The loop body of `strategy_select_instruments_for_entry` of
`volatility_trend_atr_v2.py`, iterated over the bucket. -/
def entryLoop (lib : IndicatorLib) (timeperiod_atr atr_prev_candles_num : Nat)
    (getHist : Instrument → HistData) (main_order_map : MainOrderMap)
    (st : EntryState) : List Instrument → Except PyErr EntryState
  | [] => Except.ok st
  | instrument :: rest => do
    let st1 ←
      if mainOrderGet main_order_map instrument = none then do
        let st0 ←
          if st.current_trend = 0 then do
            let t ← get_trend_direction lib timeperiod_atr atr_prev_candles_num
              (getHist instrument)
            Except.ok { st with current_trend := t, trend_calls := st.trend_calls + 1 }
          else
            Except.ok st
        if st0.current_trend = 1 then
          Except.ok { st0 with
            instruments := st0.instruments ++ [instrument],
            meta := st0.meta ++ [⟨TradeAction.BUY⟩],
            previous_trend := st0.current_trend }
        else if st0.current_trend = -1 then
          Except.ok { st0 with
            instruments := st0.instruments ++ [instrument],
            meta := st0.meta ++ [⟨TradeAction.SELL⟩],
            previous_trend := st0.current_trend }
        else
          Except.ok st0
      else
        Except.ok st
    entryLoop lib timeperiod_atr atr_prev_candles_num getHist main_order_map st1 rest

/-- The `strategy_select_instruments_for_entry` callback of
`volatility_trend_atr_v2.py`, starting from the instance fields
`current_trend` and `previous_trend`. -/
def strategy_select_instruments_for_entry (lib : IndicatorLib)
    (timeperiod_atr atr_prev_candles_num : Nat) (getHist : Instrument → HistData)
    (main_order_map : MainOrderMap) (current_trend previous_trend : Int)
    (instruments_bucket : List Instrument) : Except PyErr EntryState :=
  entryLoop lib timeperiod_atr atr_prev_candles_num getHist main_order_map
    ⟨[], [], current_trend, previous_trend, 0⟩ instruments_bucket

/-- Result of the exit selector: the two lists plus the `current_trend`
instance field it overwrote. -/
structure ExitResult where
  instruments : List Instrument
  meta : List SignalMeta
  current_trend : Int
deriving DecidableEq, Repr

/-- The loop body of `strategy_select_instruments_for_exit` of
`volatility_trend_atr_v2.py`: every bucket instrument's trend is
computed and stored into `current_trend`; an EXIT intent is added when
a live order exists and the fresh trend is nonzero and differs from
`previous_trend`.  The loop writes `current_trend` but never reads
it. -/
def exitLoop (lib : IndicatorLib) (timeperiod_atr atr_prev_candles_num : Nat)
    (getHist : Instrument → HistData) (main_order_map : MainOrderMap)
    (previous_trend : Int) (acc : ExitResult) :
    List Instrument → Except PyErr ExitResult
  | [] => Except.ok acc
  | instrument :: rest => do
    let trend ← get_trend_direction lib timeperiod_atr atr_prev_candles_num
      (getHist instrument)
    let acc := { acc with current_trend := trend }
    let acc :=
      if (mainOrderGet main_order_map instrument).isSome && !(trend == 0) &&
          !(trend == previous_trend) then
        { acc with
          instruments := acc.instruments ++ [instrument],
          meta := acc.meta ++ [⟨TradeAction.EXIT⟩] }
      else
        acc
    exitLoop lib timeperiod_atr atr_prev_candles_num getHist main_order_map
      previous_trend acc rest

/-- The `strategy_select_instruments_for_exit` callback of
`volatility_trend_atr_v2.py`. -/
def strategy_select_instruments_for_exit (lib : IndicatorLib)
    (timeperiod_atr atr_prev_candles_num : Nat) (getHist : Instrument → HistData)
    (main_order_map : MainOrderMap) (previous_trend current_trend : Int)
    (instruments_bucket : List Instrument) : Except PyErr ExitResult :=
  exitLoop lib timeperiod_atr atr_prev_candles_num getHist main_order_map
    previous_trend ⟨[], [], current_trend⟩ instruments_bucket

end Spec2Proof.VolatilityTrendATRV2

namespace Spec2Proof.StartegyOptionsBullCallSpreadWithStoplossTarget

open Spec2Proof

/-- The two entry actions of the options constants module. -/
inductive ActionConstants where
  | ENTRY_BUY
  | ENTRY_SELL
deriving DecidableEq, Repr

/-- Entry metadata `{'action': ..., 'base_instrument': ...}` produced by
the entry selector. -/
structure MetaEntry where
  action : ActionConstants
  base_instrument : Instrument
deriving DecidableEq, Repr

/-- Exit metadata `{'action': 'EXIT', 'base_instrument': ...}`. -/
structure MetaExit where
  action : TradeAction
  base_instrument : Instrument
deriving DecidableEq, Repr

/-- The per-base-instrument legs dictionary `{"BUY": order, "SELL": order}`
(insertion-ordered, as Python dicts are). -/
abbrev LegOrders := List (String × Order)

/-- The `self.child_instrument_main_orders` dictionary: base instrument
to its legs dictionary. -/
abbrev ChildOrdersMap := List (Instrument × LegOrders)

/-- Mutable trailing-stop fields of the strategy instance
(`spread_current`, `spread_entry`, `highest`, `stop`), each `None`
until set. -/
structure TSLState where
  spread_current : Option ℚ
  spread_entry : Option ℚ
  highest : Option ℚ
  stop : Option ℚ
deriving DecidableEq, Repr

/-- The freshly initialized trailing-stop state (all fields `None`). -/
def TSLState.init : TSLState := ⟨none, none, none, none⟩

/-- The `check_order_placed_successfully` helper: order is not `None`,
has a `broker_order_id`, and is not REJECTED. -/
def check_order_placed_successfully (o : Option Order) : Bool :=
  match o with
  | none => false
  | some od => od.broker_order_id.isSome && !(od.status == OrderStatus.REJECTED)

/-- The `check_order_complete_status` helper: order is not `None`, has a
`broker_order_id`, and its status is COMPLETE. -/
def check_order_complete_status (o : Option Order) : Bool :=
  match o with
  | none => false
  | some od => od.broker_order_id.isSome && (od.status == OrderStatus.COMPLETE)

/-- The `exit_all_positions_for_base_instrument` method.  It fetches
`self.child_instrument_main_orders.get(base_instrument)` and calls
`.values()` on the result: when no entry exists for the base
instrument the fetch yields `None` and the call raises
`AttributeError`.  Otherwise every (non-`None`) leg order is exited at
the broker and the base instrument's entry is popped. -/
def exit_all_positions_for_base_instrument (m : ChildOrdersMap)
    (base_instrument : Instrument) : Except PyErr ChildOrdersMap :=
  match m.lookup base_instrument with
  | none => Except.error PyErr.attributeError
  | some _orders => Except.ok (m.eraseP (fun q => q.fst == base_instrument))

/-- Python `dict.setdefault(base, {})[key] = order` on the nested
child-orders dictionary. -/
def setdefaultInsert (m : ChildOrdersMap) (base_instrument : Instrument)
    (key : String) (o : Order) : ChildOrdersMap :=
  let legSet : LegOrders → LegOrders := fun legs =>
    if legs.any (fun q => q.fst == key) then
      legs.map (fun q => if q.fst == key then (q.fst, o) else q)
    else
      legs ++ [(key, o)]
  if m.any (fun q => q.fst == base_instrument) then
    m.map (fun q => if q.fst == base_instrument then (q.fst, legSet q.snd) else q)
  else
    m ++ [(base_instrument, legSet [])]

/-- The `strategy_enter_position` callback.  `_order` is the broker's
response to the leg order placement (`None` when placement failed
outright).  On a successful check the order is recorded under its leg
key; on a failed check the strategy unwinds all sibling legs of the
base instrument and raises the fatal `ABSystemExit`. -/
def strategy_enter_position (childToBase : Instrument → Option Instrument)
    (m : ChildOrdersMap) (instrument : Instrument) (meta : MetaEntry)
    (_order : Option Order) : Except PyErr (Option Order × ChildOrdersMap) := do
  let base_instrument ← getSomeOr PyErr.keyError (childToBase instrument)
  if check_order_placed_successfully _order then
    match _order with
    | some od =>
      Except.ok (_order, setdefaultInsert m base_instrument
        (if meta.action = ActionConstants.ENTRY_BUY then "BUY" else "SELL") od)
    | none => Except.ok (_order, m)
  else do
    let _ ← exit_all_positions_for_base_instrument m base_instrument
    Except.error PyErr.abSystemExit

/-- The `trailing_stop_spread` method: maintains the spread high-water
mark and trailing stop in the instance fields and reports whether the
stop was hit (resetting those fields when it was).  Python's
`if not self.spread_entry` treats both `None` and `0` as falsy. -/
def trailing_stop_spread (m : ChildOrdersMap) (get_ltp : Instrument → ℚ)
    (base_instrument : Instrument) (trail_percentage : ℚ) (st : TSLState) :
    Except PyErr (Bool × TSLState) := do
  let orders ← getSomeOr PyErr.typeError (m.lookup base_instrument)
  let legBuy ← getSomeOr PyErr.keyError (orders.lookup "BUY")
  let legSell ← getSomeOr PyErr.keyError (orders.lookup "SELL")
  let ltp_leg_buy := get_ltp legBuy.instrument
  let ltp_leg_sell := get_ltp legSell.instrument
  let st :=
    if st.spread_entry.elim true (fun v => v == 0) then
      let se := legBuy.entry_price - legSell.entry_price
      { st with spread_entry := some se, highest := some se,
                stop := some (se * (1 - trail_percentage / 100)) }
    else st
  let spread_current := ltp_leg_buy - ltp_leg_sell
  let st := { st with spread_current := some spread_current }
  let highest0 ← getSomeOr PyErr.typeError st.highest
  let _stop0 ← getSomeOr PyErr.typeError st.stop
  let st :=
    if highest0 < spread_current then
      { st with highest := some spread_current,
                stop := some (spread_current * (1 - trail_percentage / 100)) }
    else st
  let stop1 ← getSomeOr PyErr.typeError st.stop
  if spread_current < stop1 then
    Except.ok (true, { st with highest := none, spread_entry := none, stop := none })
  else
    Except.ok (false, st)

/-- Accumulator of the exit-selector loop: the two output lists, the
trailing-stop state, and the local `_base_instruments_processed_list`. -/
structure ExitSel where
  selected : List Instrument
  meta : List MetaExit
  st : TSLState
  processed : List Instrument
deriving DecidableEq, Repr

/-- The loop body of `strategy_select_instruments_for_exit`.  For each
not-yet-processed base instrument with a (truthy, i.e. non-empty) legs
dictionary whose orders are all COMPLETE, the trailing stop is
evaluated; on a hit the selector extends `selected` with every leg's
instrument but extends `meta` with one entry per base instrument in
the whole `child_instrument_main_orders` dictionary
(`[...] * len(self.child_instrument_main_orders)` in the source). -/
def exitLoop (m : ChildOrdersMap) (childToBase : Instrument → Option Instrument)
    (get_ltp : Instrument → ℚ) (tsl_percentage : ℚ) (acc : ExitSel) :
    List Instrument → Except PyErr ExitSel
  | [] => Except.ok acc
  | instrument :: rest => do
    let acc1 ←
      if (childToBase instrument).isSome then do
        let base_instrument ← getSomeOr PyErr.keyError (childToBase instrument)
        if acc.processed.contains base_instrument then
          Except.ok acc
        else
          let acc := { acc with processed := acc.processed ++ [base_instrument] }
          match m.lookup base_instrument with
          | some orders =>
            if orders.isEmpty then
              Except.ok acc
            else if orders.all (fun q => check_order_complete_status (some q.snd)) then do
              let r ← trailing_stop_spread m get_ltp base_instrument tsl_percentage acc.st
              let acc := { acc with st := r.snd }
              if r.fst then
                Except.ok { acc with
                  selected := acc.selected ++ orders.map (fun q => q.snd.instrument),
                  meta := acc.meta ++ List.replicate m.length ⟨TradeAction.EXIT, base_instrument⟩ }
              else
                Except.ok acc
            else
              Except.ok acc
          | none => Except.ok acc
      else
        Except.ok acc
    exitLoop m childToBase get_ltp tsl_percentage acc1 rest

/-- The `strategy_select_instruments_for_exit` callback of the bull call
spread strategy. -/
def strategy_select_instruments_for_exit (m : ChildOrdersMap)
    (childToBase : Instrument → Option Instrument) (get_ltp : Instrument → ℚ)
    (tsl_percentage : ℚ) (st : TSLState) (instruments_bucket : List Instrument) :
    Except PyErr (List Instrument × List MetaExit × TSLState) := do
  let r ← exitLoop m childToBase get_ltp tsl_percentage ⟨[], [], st, []⟩ instruments_bucket
  Except.ok (r.selected, r.meta, r.st)

end Spec2Proof.StartegyOptionsBullCallSpreadWithStoplossTarget

namespace Spec2Proof.Fixtures

open Spec2Proof
open Spec2Proof.OBVBreakoutStrategy (PositionData)
open Spec2Proof.StartegyOptionsBullCallSpreadWithStoplossTarget (ChildOrdersMap)

/-- A throwaway indicator library used only to instantiate universally
quantified theorems at a concrete input. -/
def trivLib : IndicatorLib :=
  ⟨fun _ _ => [], fun _ _ => [], fun _ _ _ _ => [], fun _ _ => []⟩

/-- A concrete indicator library for OBV scenarios: OBV echoes the close
column, SMA is the identity smoothing, ATR is constantly 2. -/
def obvLib : IndicatorLib :=
  ⟨fun closes _ => closes.map some, fun xs _ => xs,
   fun _ _ closes _ => closes.map (fun _ => some 2), fun _ _ => []⟩

/-- A concrete indicator library for ATR-trend scenarios: ATR echoes the
close column. -/
def vaLib : IndicatorLib :=
  ⟨fun _ _ => [], fun xs _ => xs, fun _ _ closes _ => closes.map some, fun _ _ => []⟩

/-- Concrete equity instruments. -/
def i1 : Instrument := ⟨"SBIN"⟩

/-- A second concrete equity instrument. -/
def i2 : Instrument := ⟨"TCS"⟩

/-- A concrete options base instrument. -/
def base0 : Instrument := ⟨"NIFTY"⟩

/-- The ATM call leg instrument of the spread. -/
def c1 : Instrument := ⟨"NIFTY-CE-ATM"⟩

/-- The OTM call leg instrument of the spread. -/
def c2 : Instrument := ⟨"NIFTY-CE-OTM"⟩

/-- A bar whose four prices all equal `q` (a valid OHLC bar). -/
def flatBar (q : ℚ) : Bar := ⟨q, q, q, q, 1⟩

/-- The `k`-th bar of a strictly rising price series. -/
def risingBar (k : Nat) : Bar := flatBar ((k : ℚ) + 1)

/-- A monotonically rising close-price series of length `n` made of
valid OHLC bars (low = close = high). -/
def risingHist (n : Nat) : HistData := (List.range n).map risingBar

/-- The COMPLETE BUY-leg order (entry price 10). -/
def o1 : Order := ⟨c1, 10, some "ORD1", OrderStatus.COMPLETE⟩

/-- The COMPLETE SELL-leg order (entry price 2). -/
def o2 : Order := ⟨c2, 2, some "ORD2", OrderStatus.COMPLETE⟩

/-- A child-orders map holding both legs of one spread. -/
def bcsMap : ChildOrdersMap := [(base0, [("BUY", o1), ("SELL", o2)])]

/-- The child-to-base mapping of the spread's instruments mapper. -/
def ctb : Instrument → Option Instrument :=
  fun j => if j = c1 ∨ j = c2 then some base0 else none

/-- Broker last-traded prices: spread rallies to 10. -/
def ltpA : Instrument → ℚ := fun j => if j = c1 then 12 else 2

/-- Broker last-traded prices: spread falls back to 7. -/
def ltpB : Instrument → ℚ := fun j => if j = c1 then 9 else 2

/-- Broker last-traded prices: spread at 3, below the freshly
initialized stop. -/
def ltpC : Instrument → ℚ := fun j => if j = c1 then 5 else 2

/-- A main-order map with a live order for `i1`. -/
def emaMap : StrategyEMARegularOrder.MainOrderMap := [(i1, some o1)]

/-- An engine crossover utility that always reports an upward
crossover. -/
def crossoverOne : List (Option ℚ) → List (Option ℚ) → Int := fun _ _ => 1

/-- A one-bar window of valid OHLC data. -/
def histValid : HistData := [⟨1, 2, 0, 1, 5⟩]

/-- A positions ledger holding an open LONG position at entry price 100
for symbol SBIN. -/
def pdLong : OBVBreakoutStrategy.PositionsData :=
  [("SBIN", (⟨PositionSide.LONG, 100⟩ : PositionData))]

/-- A two-bar window whose latest close is 95 (below the 96 stop). -/
def hist8 : HistData := [⟨100, 101, 99, 100, 10⟩, ⟨95, 96, 94, 95, 10⟩]

/-- Historical-data feed returning `hist8` for every instrument. -/
def getHist8 : Instrument → HistData := fun _ => hist8

/-- A flat two-bar window (ATR trend 0 under `vaLib`). -/
def flatSmall : HistData := [flatBar 5, flatBar 5]

/-- A rising two-bar window (ATR trend 1 under `vaLib`). -/
def risingSmall : HistData := [flatBar 1, flatBar 2]

/-- A falling two-bar window (ATR trend -1 under `vaLib`). -/
def fallingSmall : HistData := [flatBar 2, flatBar 1]

/-- Feed for the trend-evaluation count run: `i1` flat, others rising. -/
def getHistT : Instrument → HistData := fun j => if j = i1 then flatSmall else risingSmall

/-- Feed A of the interference pair: `i1` rising, others flat. -/
def getHistA : Instrument → HistData := fun j => if j = i1 then risingSmall else flatSmall

/-- Feed B of the interference pair: `i1` falling, others flat
(identical to feed A away from `i1`). -/
def getHistB : Instrument → HistData := fun j => if j = i1 then fallingSmall else flatSmall

/-- Feed returning the rising two-bar window everywhere. -/
def getHistR : Instrument → HistData := fun _ => risingSmall

/-- A concrete bar for degenerate-window runs. -/
def bar0 : Bar := flatBar 1

/-- Concrete OBV strategy parameters (the source defaults). -/
def p8 : OBVBreakoutStrategy.Params := ⟨10, 20, 10, 14, 2⟩

end Spec2Proof.Fixtures

namespace Spec2Proof

/-- Bind in the `Except` monad yields `ok` exactly when both stages
do. -/
theorem except_bind_ok {ε α β : Type} (e : Except ε α) (k : α → Except ε β) (r : β) :
    (e >>= k) = Except.ok r ↔ ∃ a, e = Except.ok a ∧ k a = Except.ok r := by
  cases e with
  | error err => simp [Bind.bind, Except.bind]
  | ok a => simp [Bind.bind, Except.bind]

/-- The initial accumulator bounds a `max`-fold from below. -/
theorem le_foldl_max (l : List ℚ) (a : ℚ) : a ≤ l.foldl max a := by
  induction l generalizing a with
  | nil => exact le_refl a
  | cons x t ih => exact le_trans (le_max_left a x) (ih (max a x))

/-- Every member bounds a `max`-fold from below. -/
theorem mem_le_foldl_max (l : List ℚ) (a x : ℚ) (hx : x ∈ l) : x ≤ l.foldl max a := by
  induction l generalizing a with
  | nil => cases hx
  | cons y t ih =>
    rcases List.mem_cons.mp hx with h | h
    · subst h
      exact le_trans (le_max_right a x) (le_foldl_max t (max a x))
    · exact ih (max a y) h

/-- A `min`-fold is bounded above by its initial accumulator. -/
theorem foldl_min_le (l : List ℚ) (a : ℚ) : l.foldl min a ≤ a := by
  induction l generalizing a with
  | nil => exact le_refl a
  | cons x t ih => exact le_trans (ih (min a x)) (min_le_left a x)

/-- A `min`-fold is bounded above by every member. -/
theorem foldl_min_le_mem (l : List ℚ) (a x : ℚ) (hx : x ∈ l) : l.foldl min a ≤ x := by
  induction l generalizing a with
  | nil => cases hx
  | cons y t ih =>
    rcases List.mem_cons.mp hx with h | h
    · subst h
      exact le_trans (foldl_min_le t (min a x)) (min_le_right a x)
    · exact ih (min a y) h

/-- The value of a Python `max` bounds every member of its argument. -/
theorem mem_le_pyMax {xs : List ℚ} {m x : ℚ} (hm : pyMax xs = Except.ok m)
    (hx : x ∈ xs) : x ≤ m := by
  cases xs with
  | nil => cases hx
  | cons a t =>
    simp only [pyMax, Except.ok.injEq] at hm
    subst hm
    rcases List.mem_cons.mp hx with h | h
    · subst h
      exact le_foldl_max t x
    · exact mem_le_foldl_max t a x h

/-- The value of a Python `min` is bounded by every member of its
argument. -/
theorem pyMin_le_mem {xs : List ℚ} {m x : ℚ} (hm : pyMin xs = Except.ok m)
    (hx : x ∈ xs) : m ≤ x := by
  cases xs with
  | nil => cases hx
  | cons a t =>
    simp only [pyMin, Except.ok.injEq] at hm
    subst hm
    rcases List.mem_cons.mp hx with h | h
    · subst h
      exact foldl_min_le t x
    · exact foldl_min_le_mem t a x h

/-- A Python tail slice of a nonempty list keeps the last element. -/
theorem getLast?_pySliceLast {α : Type} (n : Nat) (xs : List α) (h : xs ≠ []) :
    (pySliceLast n xs).getLast? = xs.getLast? := by
  unfold pySliceLast
  by_cases hn : n = 0
  · simp [hn]
  · rw [if_neg hn]
    obtain ⟨a, ha⟩ := Option.isSome_iff_exists.mp (List.getLast?_isSome.mpr h)
    obtain ⟨ys, rfl⟩ := List.getLast?_eq_some_iff.mp ha
    have hlen : (ys ++ [a]).length = ys.length + 1 := by simp
    have hle : (ys ++ [a]).length - n ≤ ys.length := by omega
    rw [List.drop_append_of_le_length hle, List.getLast?_concat, List.getLast?_concat]

/-- A Python tail slice of a nonempty list is nonempty. -/
theorem pySliceLast_ne_nil {α : Type} (n : Nat) (xs : List α) (h : xs ≠ []) :
    pySliceLast n xs ≠ [] := by
  intro hc
  have := getLast?_pySliceLast n xs h
  rw [hc] at this
  exact h (List.getLast?_eq_none_iff.mp this.symm)

end Spec2Proof

namespace Spec2Proof

/-- With valid OHLC bars the price-breakout test of
`OBVBreakoutStrategy` is always false: the trailing-highs slice taken
with Python negative indexing contains the current bar, whose high
already bounds the current close. -/
theorem is_price_breakout_false (lookback_period : Nat) (hist_data : HistData)
    (hne : hist_data ≠ []) (hval : ∀ b ∈ hist_data, ValidBar b) :
    OBVBreakoutStrategy.is_price_breakout lookback_period hist_data = Except.ok false := by
  obtain ⟨b, hb⟩ := Option.isSome_iff_exists.mp (List.getLast?_isSome.mpr hne)
  have hclose : (closesOf hist_data).getLast? = some b.close := by
    simp [closesOf, hb]
  have hhighne : highsOf hist_data ≠ [] := by
    simp [highsOf]
    exact hne
  have hhigh : (pySliceLast lookback_period (highsOf hist_data)).getLast? = some b.high := by
    rw [getLast?_pySliceLast lookback_period (highsOf hist_data) hhighne]
    simp [highsOf, hb]
  have hmemb : b ∈ hist_data := List.mem_of_getLast?_eq_some hb
  have hcb : b.close ≤ b.high := (hval b hmemb).2
  unfold OBVBreakoutStrategy.is_price_breakout
  rw [show pyLast (closesOf hist_data) = Except.ok b.close from by
    unfold pyLast; rw [hclose]]
  cases hsl : pySliceLast lookback_period (highsOf hist_data) with
  | nil =>
    rw [hsl] at hhigh
    cases hhigh
  | cons a t =>
    have hmax : pyMax (a :: t) = Except.ok (t.foldl max a) := rfl
    rw [hmax]
    have hhm : b.high ≤ t.foldl max a :=
      mem_le_pyMax hmax (by rw [hsl] at hhigh; exact List.mem_of_getLast?_eq_some hhigh)
    have hnot : ¬ (t.foldl max a < b.close) := not_lt.mpr (le_trans hcb hhm)
    simp [Bind.bind, Except.bind, pure, Except.pure, hnot]

/-- With valid OHLC bars the price-breakdown test of
`OBVBreakoutStrategy` is always false, symmetrically. -/
theorem is_price_breakdown_false (lookback_period : Nat) (hist_data : HistData)
    (hne : hist_data ≠ []) (hval : ∀ b ∈ hist_data, ValidBar b) :
    OBVBreakoutStrategy.is_price_breakdown lookback_period hist_data = Except.ok false := by
  obtain ⟨b, hb⟩ := Option.isSome_iff_exists.mp (List.getLast?_isSome.mpr hne)
  have hclose : (closesOf hist_data).getLast? = some b.close := by
    simp [closesOf, hb]
  have hlowne : lowsOf hist_data ≠ [] := by
    simp [lowsOf]
    exact hne
  have hlow : (pySliceLast lookback_period (lowsOf hist_data)).getLast? = some b.low := by
    rw [getLast?_pySliceLast lookback_period (lowsOf hist_data) hlowne]
    simp [lowsOf, hb]
  have hmemb : b ∈ hist_data := List.mem_of_getLast?_eq_some hb
  have hcb : b.low ≤ b.close := (hval b hmemb).1
  unfold OBVBreakoutStrategy.is_price_breakdown
  rw [show pyLast (closesOf hist_data) = Except.ok b.close from by
    unfold pyLast; rw [hclose]]
  cases hsl : pySliceLast lookback_period (lowsOf hist_data) with
  | nil =>
    rw [hsl] at hlow
    cases hlow
  | cons a t =>
    have hmin : pyMin (a :: t) = Except.ok (t.foldl min a) := rfl
    rw [hmin]
    have hhm : t.foldl min a ≤ b.low :=
      pyMin_le_mem hmin (by rw [hsl] at hlow; exact List.mem_of_getLast?_eq_some hlow)
    have hnot : ¬ (b.close < t.foldl min a) := not_lt.mpr (le_trans hhm hcb)
    simp [Bind.bind, Except.bind, pure, Except.pure, hnot]

/-- On any nonempty window of valid OHLC bars, `compute_signals` of
`OBVBreakoutStrategy` returns no signal, whatever the indicator library
reports: both entry conditions are short-circuited away by the
impossible price conditions. -/
theorem compute_signals_none (lib : IndicatorLib) (p : OBVBreakoutStrategy.Params)
    (hist_data : HistData) (hne : hist_data ≠ []) (hval : ∀ b ∈ hist_data, ValidBar b) :
    OBVBreakoutStrategy.compute_signals lib p hist_data = Except.ok none := by
  unfold OBVBreakoutStrategy.compute_signals
  rw [is_price_breakout_false p.lookback_period hist_data hne hval,
    is_price_breakdown_false p.lookback_period hist_data hne hval]
  simp [Bind.bind, Except.bind, pure, Except.pure]

end Spec2Proof

namespace Spec2Proof.OBVBreakoutStrategy

open Spec2Proof

/-- If the selector loop ran to completion, every bucket member's step
succeeded. -/
theorem selectLoop_ok_of_mem {step : Instrument → Except PyErr (Option SignalMeta)}
    {bucket : List Instrument} {out : List Instrument × List SignalMeta}
    {i : Instrument} (hrun : selectLoop step bucket = Except.ok out)
    (hmem : i ∈ bucket) : ∃ r, step i = Except.ok r := by
  induction bucket generalizing out with
  | nil => cases hmem
  | cons j rest ih =>
    simp only [selectLoop] at hrun
    rw [except_bind_ok] at hrun
    obtain ⟨r, hstep, hrun⟩ := hrun
    rw [except_bind_ok] at hrun
    obtain ⟨pr, hloop, _⟩ := hrun
    rcases List.mem_cons.mp hmem with h | h
    · subst h
      exact ⟨r, hstep⟩
    · exact ih hloop h

/-- A bucket member whose step selects it appears in the selected
list. -/
theorem selectLoop_mem_sel {step : Instrument → Except PyErr (Option SignalMeta)}
    {bucket sel : List Instrument} {meta : List SignalMeta}
    {i : Instrument} {mv : SignalMeta}
    (hrun : selectLoop step bucket = Except.ok (sel, meta))
    (hmem : i ∈ bucket) (hstep : step i = Except.ok (some mv)) : i ∈ sel := by
  induction bucket generalizing sel meta with
  | nil => cases hmem
  | cons j rest ih =>
    simp only [selectLoop] at hrun
    rw [except_bind_ok] at hrun
    obtain ⟨r, hstepj, hrun⟩ := hrun
    rw [except_bind_ok] at hrun
    obtain ⟨⟨s, m⟩, hloop, hfin⟩ := hrun
    rcases List.mem_cons.mp hmem with h | h
    · subst h
      rw [hstep] at hstepj
      cases hstepj
      simp only [pure, Except.pure, Except.ok.injEq] at hfin
      cases hfin
      exact List.mem_cons_self i s
    · cases r with
      | some mv2 =>
        simp only [pure, Except.pure, Except.ok.injEq] at hfin
        cases hfin
        exact List.mem_cons_of_mem j (ih hloop h)
      | none =>
        simp only [pure, Except.pure, Except.ok.injEq] at hfin
        cases hfin
        exact ih hloop h

/-- A bucket member whose step declines it never appears in the
selected list. -/
theorem selectLoop_not_mem_sel {step : Instrument → Except PyErr (Option SignalMeta)}
    {bucket sel : List Instrument} {meta : List SignalMeta} {i : Instrument}
    (hstep : step i = Except.ok none)
    (hrun : selectLoop step bucket = Except.ok (sel, meta)) : i ∉ sel := by
  induction bucket generalizing sel meta with
  | nil =>
    simp only [selectLoop, Except.ok.injEq] at hrun
    cases hrun
    simp
  | cons j rest ih =>
    simp only [selectLoop] at hrun
    rw [except_bind_ok] at hrun
    obtain ⟨r, hstepj, hrun⟩ := hrun
    rw [except_bind_ok] at hrun
    obtain ⟨⟨s, m⟩, hloop, hfin⟩ := hrun
    cases r with
    | some mv2 =>
      simp only [pure, Except.pure, Except.ok.injEq] at hfin
      cases hfin
      intro hin
      rcases List.mem_cons.mp hin with h | h
      · subst h
        rw [hstep] at hstepj
        cases hstepj
      · exact ih hloop h
    | none =>
      simp only [pure, Except.pure, Except.ok.injEq] at hfin
      cases hfin
      exact ih hloop

end Spec2Proof.OBVBreakoutStrategy

namespace Spec2Proof.OBVBreakoutStrategy

open Spec2Proof

/-- For an open LONG position at entry price 100 with a current ATR of
2 and multiplier 2, the per-instrument exit check selects the
instrument whenever the latest close is below 96, whatever the OBV
state and trailing stops are. -/
theorem exit_step_long_atr_stop {lib : IndicatorLib} {p : Params}
    {getHist : Instrument → HistData} {pd : PositionsData} {i : Instrument}
    (hpos : pd.lookup i.symbol = some ⟨PositionSide.LONG, 100⟩)
    (hmul : p.atr_multiplier = 2) {c : ℚ}
    (hc : (closesOf (getHist i)).getLast? = some c) (hlt : c < 96)
    (hatr : (lib.ATR (highsOf (getHist i)) (lowsOf (getHist i))
      (closesOf (getHist i)) p.atr_period).getLast? = some (some 2))
    {r : Option SignalMeta}
    (h : exit_step lib p getHist pd i = Except.ok r) :
    r = some ⟨TradeAction.EXIT⟩ := by
  simp only [exit_step, hpos, compute_obv, hatr, hmul, Option.getD_some] at h
  rw [except_bind_ok] at h
  obtain ⟨co, hco, h⟩ := h
  rw [except_bind_ok] at h
  obtain ⟨cso, hcso, h⟩ := h
  rw [except_bind_ok] at h
  obtain ⟨cp, hcp, h⟩ := h
  have hcpc : cp = c := by
    unfold pyLast at hcp
    rw [hc] at hcp
    cases hcp
    rfl
  subst hcpc
  have h96 : pyLtOpt (some cp) (optSub (some 100) (optMulK 2 (some 2))) = true := by
    simp only [pyLtOpt, optSub, optMulK, decide_eq_true_eq]
    linarith
  rw [h96] at h
  simp only [Bool.or_true, if_true] at h
  split at h <;>
  · rw [except_bind_ok] at h
    obtain ⟨l1, hl1, h⟩ := h
    rw [except_bind_ok] at h
    obtain ⟨h1, hh1, h⟩ := h
    simp only [Bind.bind, Except.bind, pure, Except.pure, Except.ok.injEq] at h
    exact h.symm

end Spec2Proof.OBVBreakoutStrategy

namespace Spec2Proof.OBVBreakoutStrategy

open Spec2Proof

/-- A selector loop in which every step declines returns two empty
lists. -/
theorem selectLoop_all_none {step : Instrument → Except PyErr (Option SignalMeta)}
    {bucket : List Instrument} (h : ∀ i ∈ bucket, step i = Except.ok none) :
    selectLoop step bucket = Except.ok ([], []) := by
  induction bucket with
  | nil => rfl
  | cons j rest ih =>
    simp only [selectLoop, h j (List.mem_cons_self j rest),
      ih (fun i hi => h i (List.mem_cons_of_mem j hi)),
      Bind.bind, Except.bind, pure, Except.pure]

end Spec2Proof.OBVBreakoutStrategy

namespace Spec2Proof

/-- C3: in `OBVBreakoutStrategy`, for every nonempty bar window in which
every bar satisfies low ≤ close ≤ high, `compute_signals` returns
`None` (the strict comparisons run against trailing slices that
include the current bar), so `strategy_select_instruments_for_entry`
always returns two empty lists. -/
theorem C3_obv_entry_always_empty (lib : IndicatorLib) (p : OBVBreakoutStrategy.Params)
    (getHist : Instrument → HistData) (pd : OBVBreakoutStrategy.PositionsData)
    (bucket : List Instrument)
    (hne : ∀ i ∈ bucket, getHist i ≠ [])
    (hval : ∀ i ∈ bucket, ∀ b ∈ getHist i, ValidBar b) :
    (∀ i ∈ bucket, OBVBreakoutStrategy.compute_signals lib p (getHist i) = Except.ok none) ∧
    OBVBreakoutStrategy.strategy_select_instruments_for_entry lib p getHist pd bucket =
      Except.ok ([], []) := by
  refine ⟨fun i hi => compute_signals_none lib p (getHist i) (hne i hi) (hval i hi), ?_⟩
  unfold OBVBreakoutStrategy.strategy_select_instruments_for_entry
  apply OBVBreakoutStrategy.selectLoop_all_none
  intro i hi
  unfold OBVBreakoutStrategy.entry_step
  cases hl : (pd.lookup i.symbol) with
  | some v => simp [hl]
  | none =>
    simp only [hl, Option.isSome_none, Bool.false_eq_true, if_false]
    rw [compute_signals_none lib p (getHist i) (hne i hi) (hval i hi)]
    rfl

/-- C3 witness: a concrete single-bar valid window with an empty ledger
produces no signal and an empty selection. -/
theorem C3_obv_entry_always_empty_witness :
    (∀ i ∈ [Fixtures.i1], OBVBreakoutStrategy.compute_signals Fixtures.trivLib Fixtures.p8
      ((fun _ => Fixtures.histValid) i) = Except.ok none) ∧
    OBVBreakoutStrategy.strategy_select_instruments_for_entry Fixtures.trivLib Fixtures.p8
      (fun _ => Fixtures.histValid) [] [Fixtures.i1] = Except.ok ([], []) :=
  C3_obv_entry_always_empty Fixtures.trivLib Fixtures.p8 (fun _ => Fixtures.histValid) []
    [Fixtures.i1] (by decide) (by decide)

/-- C2: on the monotonically rising close-price series (valid OHLC
bars, any positive length, any lookback), `compute_signals` of
`OBVBreakoutStrategy` returns `None` at every tick — the BUY breakout
never fires, contradicting the specified fire-exactly-once behaviour. -/
theorem C2_rising_series_never_signals (lib : IndicatorLib)
    (p : OBVBreakoutStrategy.Params) (n : Nat) (hn : 1 ≤ n) :
    OBVBreakoutStrategy.compute_signals lib p (Fixtures.risingHist n) = Except.ok none := by
  apply compute_signals_none
  · intro hcon
    have hlen := congrArg List.length hcon
    simp [Fixtures.risingHist] at hlen
    omega
  · intro b hb
    simp only [Fixtures.risingHist, List.mem_map] at hb
    obtain ⟨k, _, rfl⟩ := hb
    exact ⟨le_refl _, le_refl _⟩

/-- C2 witness: the rising series of length 25 yields no signal. -/
theorem C2_rising_series_never_signals_witness :
    1 ≤ 25 ∧ OBVBreakoutStrategy.compute_signals Fixtures.trivLib Fixtures.p8
      (Fixtures.risingHist 25) = Except.ok none :=
  ⟨by decide, C2_rising_series_never_signals Fixtures.trivLib Fixtures.p8 25 (by decide)⟩

end Spec2Proof

namespace Spec2Proof

/-- C8: in `OBVBreakoutStrategy`, for an instrument holding an open LONG
position with entry price 100, when the current ATR value is 2 and the
ATR multiplier is 2, `strategy_select_instruments_for_exit` selects
that instrument for EXIT whenever the latest close is below 96 —
whatever the OBV series, smoothed OBV, and trailing stops are at that
tick. -/
theorem C8_long_atr_stop_exit (lib : IndicatorLib) (p : OBVBreakoutStrategy.Params)
    (getHist : Instrument → HistData) (pd : OBVBreakoutStrategy.PositionsData)
    (i : Instrument) (c : ℚ) (bucket sel : List Instrument)
    (meta : List SignalMeta)
    (hpos : pd.lookup i.symbol = some ⟨PositionSide.LONG, 100⟩)
    (hmul : p.atr_multiplier = 2)
    (hc : (closesOf (getHist i)).getLast? = some c) (hlt : c < 96)
    (hatr : (lib.ATR (highsOf (getHist i)) (lowsOf (getHist i))
      (closesOf (getHist i)) p.atr_period).getLast? = some (some 2))
    (hmem : i ∈ bucket)
    (hrun : OBVBreakoutStrategy.strategy_select_instruments_for_exit lib p getHist pd
      bucket = Except.ok (sel, meta)) :
    i ∈ sel := by
  unfold OBVBreakoutStrategy.strategy_select_instruments_for_exit at hrun
  obtain ⟨r, hstep⟩ := OBVBreakoutStrategy.selectLoop_ok_of_mem hrun hmem
  have hr := OBVBreakoutStrategy.exit_step_long_atr_stop hpos hmul hc hlt hatr hstep
  rw [hr] at hstep
  exact OBVBreakoutStrategy.selectLoop_mem_sel hrun hmem hstep

/-- C8 witness: with entry price 100, ATR 2, multiplier 2 and latest
close 95, the exit selector emits EXIT for the instrument. -/
theorem C8_long_atr_stop_exit_witness :
    OBVBreakoutStrategy.strategy_select_instruments_for_exit Fixtures.obvLib Fixtures.p8
      Fixtures.getHist8 Fixtures.pdLong [Fixtures.i1] =
      Except.ok ([Fixtures.i1], [⟨TradeAction.EXIT⟩]) ∧
    Fixtures.i1 ∈ ([Fixtures.i1] : List Instrument) :=
  ⟨by with_unfolding_all rfl,
    C8_long_atr_stop_exit Fixtures.obvLib Fixtures.p8 Fixtures.getHist8 Fixtures.pdLong
      Fixtures.i1 95 [Fixtures.i1] [Fixtures.i1] [⟨TradeAction.EXIT⟩] (by decide) (by decide)
      (by decide) (by decide) (by decide) (by decide) (by with_unfolding_all rfl)⟩

end Spec2Proof

namespace Spec2Proof

/-- C1 (amended): the `OBVBreakoutStrategy` entry selector never selects
an instrument whose symbol has an open record in `positions_data` —
such instruments are skipped before any signal is computed. -/
theorem C1_obv_entry_skips_open_positions (lib : IndicatorLib)
    (p : OBVBreakoutStrategy.Params) (getHist : Instrument → HistData)
    (pd : OBVBreakoutStrategy.PositionsData) (bucket sel : List Instrument)
    (meta : List SignalMeta) (i : Instrument)
    (hpos : (pd.lookup i.symbol).isSome = true)
    (hrun : OBVBreakoutStrategy.strategy_select_instruments_for_entry lib p getHist pd
      bucket = Except.ok (sel, meta)) :
    i ∉ sel := by
  unfold OBVBreakoutStrategy.strategy_select_instruments_for_entry at hrun
  apply OBVBreakoutStrategy.selectLoop_not_mem_sel ?_ hrun
  unfold OBVBreakoutStrategy.entry_step
  rw [if_pos hpos]

/-- C1 counterexample: `ema_crossover_v2.py`'s entry selector never
consults `main_order_map`; with an open order recorded for the
instrument and an upward crossover, the instrument is still selected
for BUY entry. -/
theorem C1_counterexample_ema_entry_ignores_ledger :
    StrategyEMARegularOrder.mainOrderGet Fixtures.emaMap Fixtures.i1 = some Fixtures.o1 ∧
    StrategyEMARegularOrder.strategy_select_instruments_for_entry Fixtures.trivLib
      Fixtures.crossoverOne 5 12 (fun _ => Fixtures.histValid) [Fixtures.i1] =
      ([Fixtures.i1], [⟨TradeAction.BUY⟩]) := by
  exact ⟨by decide, by decide⟩

/-- C1 witness: an instrument with an open LONG record is skipped by the
OBV entry selector. -/
theorem C1_obv_entry_skips_open_positions_witness :
    (Fixtures.pdLong.lookup Fixtures.i1.symbol).isSome = true ∧
    OBVBreakoutStrategy.strategy_select_instruments_for_entry Fixtures.trivLib Fixtures.p8
      (fun _ => Fixtures.histValid) Fixtures.pdLong [Fixtures.i1] = Except.ok ([], []) ∧
    Fixtures.i1 ∉ ([] : List Instrument) :=
  ⟨by decide, by decide,
    C1_obv_entry_skips_open_positions Fixtures.trivLib Fixtures.p8
      (fun _ => Fixtures.histValid) Fixtures.pdLong [Fixtures.i1] [] [] Fixtures.i1
      (by decide) (by decide)⟩

end Spec2Proof

namespace Spec2Proof.StartegyOptionsBullCallSpreadWithStoplossTarget

open Spec2Proof

/-- C4: in the bull-call-spread strategy, when the first leg's order
placement fails the success check before any sibling leg was recorded,
the unwind dereferences the missing map entry and raises
`AttributeError` instead of the intended fatal `ABSystemExit`; when the
second leg fails after the BUY leg was recorded, the unwind succeeds
and the strategy aborts with `ABSystemExit`. -/
theorem C4_first_leg_failure_raises_attribute_error :
    strategy_enter_position Fixtures.ctb [] Fixtures.c1
      ⟨ActionConstants.ENTRY_BUY, Fixtures.base0⟩ none = Except.error PyErr.attributeError ∧
    strategy_enter_position Fixtures.ctb [(Fixtures.base0, [("BUY", Fixtures.o1)])]
      Fixtures.c2 ⟨ActionConstants.ENTRY_SELL, Fixtures.base0⟩ none =
      Except.error PyErr.abSystemExit := by
  exact ⟨by decide, by decide⟩

/-- C5: with a single base instrument whose two COMPLETE legs hit the
trailing stop, the bull-call-spread exit selector returns two selected
child instruments but only one metadata entry — the metadata list is
extended by the size of the whole `child_instrument_main_orders`
dictionary, not by the number of legs. -/
theorem C5_bcs_exit_selector_length_mismatch :
    strategy_select_instruments_for_exit Fixtures.bcsMap Fixtures.ctb Fixtures.ltpC 20
      TSLState.init [Fixtures.c1, Fixtures.c2] =
      Except.ok ([Fixtures.c1, Fixtures.c2], [⟨TradeAction.EXIT, Fixtures.base0⟩],
        ⟨some 3, none, none, none⟩) ∧
    ([Fixtures.c1, Fixtures.c2] : List Instrument).length = 2 ∧
    ([(⟨TradeAction.EXIT, Fixtures.base0⟩ : MetaExit)] : List MetaExit).length = 1 := by
  refine ⟨by with_unfolding_all rfl, rfl, rfl⟩

/-- C7 counterexample: the bull-call-spread exit selector is not
idempotent.  After the spread rallies to 10 (first call), a second call
at spread 7 trips the trailing stop, returns both legs and resets the
trailing state; a third call with inputs identical to the second — and
no intervening `strategy_exit_position` — re-initializes the stop from
the entry spread and returns empty lists. -/
theorem C7_counterexample_bcs_exit_not_idempotent :
    strategy_select_instruments_for_exit Fixtures.bcsMap Fixtures.ctb Fixtures.ltpA 20
      TSLState.init [Fixtures.c1, Fixtures.c2] =
      Except.ok ([], [], ⟨some 10, some 8, some 10, some 8⟩) ∧
    strategy_select_instruments_for_exit Fixtures.bcsMap Fixtures.ctb Fixtures.ltpB 20
      ⟨some 10, some 8, some 10, some 8⟩ [Fixtures.c1, Fixtures.c2] =
      Except.ok ([Fixtures.c1, Fixtures.c2], [⟨TradeAction.EXIT, Fixtures.base0⟩],
        ⟨some 7, none, none, none⟩) ∧
    strategy_select_instruments_for_exit Fixtures.bcsMap Fixtures.ctb Fixtures.ltpB 20
      ⟨some 7, none, none, none⟩ [Fixtures.c1, Fixtures.c2] =
      Except.ok ([], [], ⟨some 7, some 8, some 8, some (32/5)⟩) ∧
    ([Fixtures.c1, Fixtures.c2] : List Instrument) ≠ [] := by
  refine ⟨by with_unfolding_all rfl, by with_unfolding_all rfl,
    by with_unfolding_all rfl, by decide⟩

end Spec2Proof.StartegyOptionsBullCallSpreadWithStoplossTarget

namespace Spec2Proof

/-- Comparison of a possibly-NaN value against NaN (on the right) is
false. -/
theorem pyLeOpt_none_right (x : Option ℚ) : pyLeOpt x none = false := by
  cases x <;> rfl

/-- Comparison of a possibly-NaN value against NaN (on the right) is
false, `>=` variant. -/
theorem pyGeOpt_none_right (x : Option ℚ) : pyGeOpt x none = false := by
  cases x <;> rfl

/-- Negative pandas single-element access succeeds on long-enough
frames. -/
theorem pyIlocNeg_ok {α : Type} (xs : List α) (n : Nat) (h1 : 1 ≤ n)
    (h2 : n ≤ xs.length) : ∃ a, pyIlocNeg xs n = Except.ok a := by
  unfold pyIlocNeg
  rw [if_neg (by omega), if_pos h2]
  cases hh : (xs.drop (xs.length - n)).head? with
  | some a => exact ⟨a, rfl⟩
  | none =>
    rw [List.head?_eq_none_iff] at hh
    have hlen := congrArg List.length hh
    simp only [List.length_drop, List.length_nil] at hlen
    omega

/-- C6 (amended): when the Bollinger band values at the latest bar are
NaN — as talib reports while the window is shorter than the indicator
lookback — both `get_decision` variants return `None` rather than
raising, provided the window holds at least the two bars the candle
lookups dereference. -/
theorem C6_insufficient_history_returns_none (upper_band lower_band : List (Option ℚ))
    (hist_data : HistData) (hu : upper_band.getLast? = some none)
    (hl : lower_band.getLast? = some none) (hlen : 2 ≤ hist_data.length) :
    MeanReversionBollingerBandsV2.get_decision upper_band lower_band hist_data =
      Except.ok none ∧
    StrategyBollingerBandsIntraday.get_decision upper_band lower_band hist_data =
      Except.ok none := by
  obtain ⟨latest, hlatest⟩ := pyIlocNeg_ok hist_data 1 (by omega) (by omega)
  obtain ⟨previous, hprevious⟩ := pyIlocNeg_ok hist_data 2 (by omega) hlen
  have hup : pyLast upper_band = Except.ok none := by
    unfold pyLast
    rw [hu]
  have hlo : pyLast lower_band = Except.ok none := by
    unfold pyLast
    rw [hl]
  constructor
  · unfold MeanReversionBollingerBandsV2.get_decision
    rw [hup, hlo]
    simp [Bind.bind, Except.bind, hlatest, hprevious, pyLeOpt_none_right,
      pyGeOpt_none_right, pure, Except.pure]
  · unfold StrategyBollingerBandsIntraday.get_decision
    rw [hup, hlo]
    simp [Bind.bind, Except.bind, hlatest, hprevious, pyLeOpt_none_right,
      pyGeOpt_none_right, pure, Except.pure]

/-- C6 counterexample: on a window of length 1 (bands NaN, as talib
returns), `get_decision` raises an IndexError on the `iloc[-2]`
previous-candle access instead of returning `None`. -/
theorem C6_counterexample_short_window_raises :
    MeanReversionBollingerBandsV2.get_decision [none] [none] [Fixtures.bar0] =
      Except.error PyErr.indexError := by
  decide

/-- C6 witness: a two-bar window with NaN band values yields `None` from
both variants. -/
theorem C6_insufficient_history_returns_none_witness :
    MeanReversionBollingerBandsV2.get_decision [none] [none]
      [Fixtures.bar0, Fixtures.bar0] = Except.ok none ∧
    StrategyBollingerBandsIntraday.get_decision [none] [none]
      [Fixtures.bar0, Fixtures.bar0] = Except.ok none :=
  C6_insufficient_history_returns_none [none] [none] [Fixtures.bar0, Fixtures.bar0]
    (by decide) (by decide) (by decide)

end Spec2Proof

namespace Spec2Proof.StrategyEMARegularOrder

open Spec2Proof

/-- Storing `None` for an instrument makes its dictionary lookup yield
that stored `None`. -/
theorem lookup_mainOrderSetNone (m : MainOrderMap) (i : Instrument) :
    (mainOrderSetNone m i).lookup i = some none := by
  induction m with
  | nil => simp [mainOrderSetNone]
  | cons q rest ih =>
    obtain ⟨k, v⟩ := q
    by_cases hk : k = i
    · subst hk
      have hany : ((k, v) :: rest).any (fun q => q.fst == k) = true := by
        simp [List.any_cons]
      rw [show mainOrderSetNone ((k, v) :: rest) k =
          ((k, v) :: rest).map (fun q => if q.fst == k then (q.fst, none) else q) from by
        unfold mainOrderSetNone
        rw [if_pos hany]]
      simp [List.lookup_cons]
    · have hbk : (k == i) = false := beq_eq_false_iff_ne.mpr hk
      have hik : (i == k) = false := beq_eq_false_iff_ne.mpr (fun hc => hk hc.symm)
      by_cases hany : rest.any (fun q => q.fst == i) = true
      · have hany2 : ((k, v) :: rest).any (fun q => q.fst == i) = true := by
          simp [List.any_cons, hany]
        have ih2 := ih
        rw [show mainOrderSetNone rest i =
            rest.map (fun q => if q.fst == i then (q.fst, none) else q) from by
          unfold mainOrderSetNone
          rw [if_pos hany]] at ih2
        rw [show mainOrderSetNone ((k, v) :: rest) i =
            ((k, v) :: rest).map (fun q => if q.fst == i then (q.fst, none) else q) from by
          unfold mainOrderSetNone
          rw [if_pos hany2]]
        simp only [List.map_cons, hbk, Bool.false_eq_true, if_false]
        simp only [List.lookup_cons, hik]
        exact ih2
      · have hany2 : ¬ (((k, v) :: rest).any (fun q => q.fst == i) = true) := by
          simp only [List.any_cons, hbk, Bool.false_or]
          simpa using hany
        have ih2 := ih
        rw [show mainOrderSetNone rest i = rest ++ [(i, none)] from by
          unfold mainOrderSetNone
          rw [if_neg hany]] at ih2
        rw [show mainOrderSetNone ((k, v) :: rest) i = ((k, v) :: rest) ++ [(i, none)] from by
          unfold mainOrderSetNone
          rw [if_neg hany2]]
        rw [List.cons_append]
        simp only [List.lookup_cons, hik]
        exact ih2

end Spec2Proof.StrategyEMARegularOrder

namespace Spec2Proof.OBVBreakoutStrategy

open Spec2Proof

/-- Deleting an instrument's entry from a duplicate-free positions
dictionary leaves no binding for its symbol. -/
theorem lookup_eraseP_self {β : Type} (pd : List (String × β)) (s : String)
    (hnd : (pd.map Prod.fst).Nodup) :
    (pd.eraseP (fun q => q.fst == s)).lookup s = none := by
  induction pd with
  | nil => rfl
  | cons q t ih =>
    obtain ⟨k, v⟩ := q
    simp only [List.map_cons, List.nodup_cons] at hnd
    by_cases hk : k = s
    · subst hk
      rw [List.eraseP_cons_of_pos (by simp)]
      rw [List.lookup_eq_none_iff]
      intro p hp
      have hne : p.fst ≠ k := by
        intro hc
        exact hnd.1 (List.mem_map.mpr ⟨p, hp, hc⟩)
      simp only [bne_iff_ne, ne_eq]
      exact fun hc => hne hc.symm
    · rw [List.eraseP_cons_of_neg (by simp [hk])]
      have hsk : (s == k) = false := beq_eq_false_iff_ne.mpr (fun hc => hk hc.symm)
      simp only [List.lookup_cons, hsk]
      exact ih hnd.2

end Spec2Proof.OBVBreakoutStrategy

namespace Spec2Proof

/-- C9 (amended): the `ema_crossover_v2.py` exit-position callback
returns the boolean `True` exactly on action EXIT — clearing the
instrument's ledger entry so no open position remains — and `False`
otherwise with the ledger untouched; the `obv_breakout` callback also
removes the instrument's record on EXIT, but returns Python `None`
rather than a boolean. -/
theorem C9_exit_position_contract :
    (∀ (m : StrategyEMARegularOrder.MainOrderMap) (i : Instrument) (od : Order),
      m.lookup i = some (some od) →
      StrategyEMARegularOrder.strategy_exit_position m i ⟨TradeAction.EXIT⟩ =
        Except.ok (some true, StrategyEMARegularOrder.mainOrderSetNone m i) ∧
      StrategyEMARegularOrder.mainOrderGet (StrategyEMARegularOrder.mainOrderSetNone m i)
        i = none) ∧
    (∀ (m : StrategyEMARegularOrder.MainOrderMap) (i : Instrument) (meta : SignalMeta),
      meta.action ≠ TradeAction.EXIT →
      StrategyEMARegularOrder.strategy_exit_position m i meta = Except.ok (some false, m)) ∧
    (∀ (pd : OBVBreakoutStrategy.PositionsData) (i : Instrument),
      (pd.map Prod.fst).Nodup →
      (OBVBreakoutStrategy.strategy_exit_position pd i ⟨TradeAction.EXIT⟩).fst = none ∧
      ((OBVBreakoutStrategy.strategy_exit_position pd i ⟨TradeAction.EXIT⟩).snd.lookup
        i.symbol) = none) := by
  refine ⟨?_, ?_, ?_⟩
  · intro m i od hm
    constructor
    · unfold StrategyEMARegularOrder.strategy_exit_position
      rw [if_pos rfl, hm]
    · simp [StrategyEMARegularOrder.mainOrderGet,
        StrategyEMARegularOrder.lookup_mainOrderSetNone]
  · intro m i meta hmeta
    unfold StrategyEMARegularOrder.strategy_exit_position
    rw [if_neg hmeta]
  · intro pd i hnd
    constructor
    · unfold OBVBreakoutStrategy.strategy_exit_position
      rw [if_pos rfl]
    · unfold OBVBreakoutStrategy.strategy_exit_position
      rw [if_pos rfl]
      exact OBVBreakoutStrategy.lookup_eraseP_self pd i.symbol hnd

/-- C9 counterexample: the `obv_breakout` exit-position callback fully
closes the position (the ledger entry is gone) yet returns Python
`None` instead of the contracted boolean `True`. -/
theorem C9_counterexample_obv_exit_returns_no_bool :
    (OBVBreakoutStrategy.strategy_exit_position Fixtures.pdLong Fixtures.i1
      ⟨TradeAction.EXIT⟩).fst = none ∧
    (OBVBreakoutStrategy.strategy_exit_position Fixtures.pdLong Fixtures.i1
      ⟨TradeAction.EXIT⟩).snd = [] ∧
    (OBVBreakoutStrategy.strategy_exit_position Fixtures.pdLong Fixtures.i1
      ⟨TradeAction.EXIT⟩).fst ≠ some true := by
  refine ⟨by decide, by decide, by decide⟩

/-- C9 witness: concrete EXIT and non-EXIT invocations of both
callbacks. -/
theorem C9_exit_position_contract_witness :
    (StrategyEMARegularOrder.strategy_exit_position Fixtures.emaMap Fixtures.i1
      ⟨TradeAction.EXIT⟩ = Except.ok (some true,
        StrategyEMARegularOrder.mainOrderSetNone Fixtures.emaMap Fixtures.i1) ∧
      StrategyEMARegularOrder.mainOrderGet
        (StrategyEMARegularOrder.mainOrderSetNone Fixtures.emaMap Fixtures.i1)
        Fixtures.i1 = none) ∧
    StrategyEMARegularOrder.strategy_exit_position Fixtures.emaMap Fixtures.i1
      ⟨TradeAction.BUY⟩ = Except.ok (some false, Fixtures.emaMap) ∧
    ((OBVBreakoutStrategy.strategy_exit_position Fixtures.pdLong Fixtures.i1
      ⟨TradeAction.EXIT⟩).fst = none ∧
      ((OBVBreakoutStrategy.strategy_exit_position Fixtures.pdLong Fixtures.i1
        ⟨TradeAction.EXIT⟩).snd.lookup Fixtures.i1.symbol) = none) :=
  ⟨C9_exit_position_contract.1 Fixtures.emaMap Fixtures.i1 Fixtures.o1 (by decide),
   C9_exit_position_contract.2.1 Fixtures.emaMap Fixtures.i1 ⟨TradeAction.BUY⟩ (by decide),
   C9_exit_position_contract.2.2 Fixtures.pdLong Fixtures.i1 (by decide)⟩

end Spec2Proof

namespace Spec2Proof.VolatilityTrendATRV2

open Spec2Proof

/-- The exit-selector loop writes `current_trend` but never reads it, so
its result does not depend on the incoming value once at least one
instrument is processed. -/
theorem exitLoop_ct_irrelevant (lib : IndicatorLib) (tp apn : Nat)
    (getHist : Instrument → HistData)
    (map : StrategyEMARegularOrder.MainOrderMap) (prev : Int)
    (xs : List Instrument) (ms : List SignalMeta) (c c' : Int)
    (i : Instrument) (rest : List Instrument) :
    exitLoop lib tp apn getHist map prev ⟨xs, ms, c⟩ (i :: rest) =
      exitLoop lib tp apn getHist map prev ⟨xs, ms, c'⟩ (i :: rest) := by
  simp only [exitLoop]

/-- When the shared trend is already nonzero, the entry-selector loop
never evaluates `get_trend_direction` (the ghost call counter is
unchanged). -/
theorem entryLoop_no_calls_of_ct_ne_zero (lib : IndicatorLib) (tp apn : Nat)
    (getHist : Instrument → HistData)
    (map : StrategyEMARegularOrder.MainOrderMap) (bucket : List Instrument) :
    ∀ (st r : EntryState), st.current_trend ≠ 0 →
      entryLoop lib tp apn getHist map st bucket = Except.ok r →
      r.trend_calls = st.trend_calls := by
  induction bucket with
  | nil =>
    intro st r hct h
    simp only [entryLoop, Except.ok.injEq] at h
    subst h
    rfl
  | cons i rest ih =>
    intro st r hct h
    simp only [entryLoop] at h
    by_cases hmo : StrategyEMARegularOrder.mainOrderGet map i = none
    · rw [if_pos hmo, if_neg hct] at h
      simp only [Bind.bind, Except.bind] at h
      by_cases h1 : st.current_trend = 1
      · rw [if_pos h1] at h
        refine (ih _ r ?_ h).trans rfl
        exact hct
      · rw [if_neg h1] at h
        by_cases h2 : st.current_trend = -1
        · rw [if_pos h2] at h
          refine (ih _ r ?_ h).trans rfl
          exact hct
        · rw [if_neg h2] at h
          exact ih st r hct h
    · rw [if_neg hmo] at h
      simp only [Bind.bind, Except.bind] at h
      exact ih st r hct h

end Spec2Proof.VolatilityTrendATRV2

namespace Spec2Proof

/-- C7 (amended): the exit selector of `volatility_trend_atr_v2.py` is
idempotent — called twice with the same candle data, ledger and
previous trend and no intervening `strategy_exit_position`, the second
call (from the state the first call left behind) returns the identical
instrument and metadata lists: its only mutation, `current_trend`, is
never read by the loop. -/
theorem C7_va_exit_selector_idempotent (lib : IndicatorLib) (tp apn : Nat)
    (getHist : Instrument → HistData)
    (map : StrategyEMARegularOrder.MainOrderMap) (prev ct : Int)
    (bucket l : List Instrument) (ms : List SignalMeta) (ct1 : Int)
    (h1 : VolatilityTrendATRV2.strategy_select_instruments_for_exit lib tp apn getHist
      map prev ct bucket = Except.ok ⟨l, ms, ct1⟩) :
    VolatilityTrendATRV2.strategy_select_instruments_for_exit lib tp apn getHist
      map prev ct1 bucket = Except.ok ⟨l, ms, ct1⟩ := by
  cases bucket with
  | nil =>
    unfold VolatilityTrendATRV2.strategy_select_instruments_for_exit at h1 ⊢
    simp only [VolatilityTrendATRV2.exitLoop, Except.ok.injEq,
      VolatilityTrendATRV2.ExitResult.mk.injEq] at h1 ⊢
    obtain ⟨rfl, rfl, rfl⟩ := h1
    simp
  | cons i rest =>
    unfold VolatilityTrendATRV2.strategy_select_instruments_for_exit at h1 ⊢
    rw [VolatilityTrendATRV2.exitLoop_ct_irrelevant lib tp apn getHist map prev
      [] [] ct1 ct i rest]
    exact h1

/-- C7 witness: a concrete two-call run of the ATR-trend exit selector
returning the same EXIT selection both times. -/
theorem C7_va_exit_selector_idempotent_witness :
    VolatilityTrendATRV2.strategy_select_instruments_for_exit Fixtures.vaLib 1 2
      Fixtures.getHistR Fixtures.emaMap 0 0 [Fixtures.i1] =
      Except.ok ⟨[Fixtures.i1], [⟨TradeAction.EXIT⟩], 1⟩ ∧
    VolatilityTrendATRV2.strategy_select_instruments_for_exit Fixtures.vaLib 1 2
      Fixtures.getHistR Fixtures.emaMap 0 1 [Fixtures.i1] =
      Except.ok ⟨[Fixtures.i1], [⟨TradeAction.EXIT⟩], 1⟩ :=
  ⟨by decide,
    C7_va_exit_selector_idempotent Fixtures.vaLib 1 2 Fixtures.getHistR Fixtures.emaMap
      0 0 [Fixtures.i1] [Fixtures.i1] [⟨TradeAction.EXIT⟩] 1 (by decide)⟩

/-- C10 (amended): in `VolatilityTrendATRV2`, `get_trend_direction` is
evaluated only while the shared `current_trend` field is zero (never
once it is nonzero), and the one evaluated trend drives every
subsequent position-free instrument: two runs that differ only in the
historical data of the first instrument assign different actions to
the second instrument. -/
theorem C10_shared_trend_across_instruments :
    (∀ (lib : IndicatorLib) (tp apn : Nat) (getHist : Instrument → HistData)
      (map : StrategyEMARegularOrder.MainOrderMap) (bucket : List Instrument)
      (st r : VolatilityTrendATRV2.EntryState), st.current_trend ≠ 0 →
      VolatilityTrendATRV2.entryLoop lib tp apn getHist map st bucket = Except.ok r →
      r.trend_calls = st.trend_calls) ∧
    (∀ j : Instrument, j ≠ Fixtures.i1 → Fixtures.getHistA j = Fixtures.getHistB j) ∧
    VolatilityTrendATRV2.strategy_select_instruments_for_entry Fixtures.vaLib 1 2
      Fixtures.getHistA [] 0 0 [Fixtures.i1, Fixtures.i2] =
      Except.ok ⟨[Fixtures.i1, Fixtures.i2], [⟨TradeAction.BUY⟩, ⟨TradeAction.BUY⟩],
        1, 1, 1⟩ ∧
    VolatilityTrendATRV2.strategy_select_instruments_for_entry Fixtures.vaLib 1 2
      Fixtures.getHistB [] 0 0 [Fixtures.i1, Fixtures.i2] =
      Except.ok ⟨[Fixtures.i1, Fixtures.i2], [⟨TradeAction.SELL⟩, ⟨TradeAction.SELL⟩],
        -1, -1, 1⟩ := by
  refine ⟨?_, ?_, by decide, by decide⟩
  · intro lib tp apn getHist map bucket st r hct h
    exact VolatilityTrendATRV2.entryLoop_no_calls_of_ct_ne_zero lib tp apn getHist map
      bucket st r hct h
  · intro j hj
    simp [Fixtures.getHistA, Fixtures.getHistB, hj]

/-- C10 counterexample: with two position-free instruments whose first
reports a zero trend, the entry selector evaluates
`get_trend_direction` twice in a single call (ghost counter 2), using
the second instrument's data for the shared trend. -/
theorem C10_counterexample_trend_evaluated_twice :
    VolatilityTrendATRV2.strategy_select_instruments_for_entry Fixtures.vaLib 1 2
      Fixtures.getHistT [] 0 0 [Fixtures.i1, Fixtures.i2] =
      Except.ok ⟨[Fixtures.i2], [⟨TradeAction.BUY⟩], 1, 1, 2⟩ ∧ ¬ (2 : Nat) ≤ 1 := by
  exact ⟨by decide, by decide⟩

/-- C10 witness: a run starting with nonzero shared trend performs no
trend evaluation. -/
theorem C10_shared_trend_across_instruments_witness :
    VolatilityTrendATRV2.entryLoop Fixtures.vaLib 1 2 Fixtures.getHistR []
      ⟨[], [], 1, 0, 0⟩ [Fixtures.i1] =
      Except.ok ⟨[Fixtures.i1], [⟨TradeAction.BUY⟩], 1, 1, 0⟩ ∧
    (⟨[Fixtures.i1], [⟨TradeAction.BUY⟩], 1, 1, 0⟩ :
      VolatilityTrendATRV2.EntryState).trend_calls =
      (⟨[], [], 1, 0, 0⟩ : VolatilityTrendATRV2.EntryState).trend_calls :=
  ⟨by decide,
    C10_shared_trend_across_instruments.1 Fixtures.vaLib 1 2 Fixtures.getHistR []
      [Fixtures.i1] ⟨[], [], 1, 0, 0⟩ ⟨[Fixtures.i1], [⟨TradeAction.BUY⟩], 1, 1, 0⟩
      (by decide) (by decide)⟩

end Spec2Proof
